import Mathlib

/-!
Shallow embedding, in Lean 4, of the ingestion-and-quality pipeline of the
Jio-Internship-Assignments repository (Assignment 7: `gcs_to_bq/main.py`,
`BQ_SQL/data_cleaner.py`, `BQ_SQL/validator.py`, `clean_table/main.py`).
Pure Python functions become Lean functions over `List Char` / `String`,
`ℕ`, `ℤ` and `ℚ`; the stateful Cloud-Function entry points become explicit
state-passing functions over a record of the BigQuery store; calls to the
external services (table lookups, load jobs, create-dataset results) become
explicit parameters or oracle functions.  Fallible Python code (raising and
catching exceptions) is modelled with `Option` / explicit error outcomes.
-/

/-! ## Basic string helpers (models of the Python string primitives used) -/

/-- Model of ASCII lowering, as performed by `str.lower()` on ASCII input
(the only input relevant to the pipeline's mode tokens and type keywords). -/
def asciiLower (c : Char) : Char :=
  if 'A' ≤ c ∧ c ≤ 'Z' then Char.ofNat (c.toNat + 32) else c

/-- Model of Python `str.strip()`: drop whitespace from both ends. -/
def stripChars (cs : List Char) : List Char :=
  ((cs.dropWhile Char.isWhitespace).reverse.dropWhile Char.isWhitespace).reverse

/-- Model of Python `str.split(sep)` (no maxsplit) for a single-character
separator: `"".split("-") = [""]`, separators at the ends produce empty
tokens, exactly as in Python. -/
def splitAllChar (sep : Char) : List Char → List (List Char)
  | [] => [[]]
  | c :: rest =>
    if c = sep then [] :: splitAllChar sep rest
    else match splitAllChar sep rest with
      | t :: ts => (c :: t) :: ts
      | [] => [[c]]

/-- Whether `pre` is an initial segment of the second list. -/
def leadsWith : List Char → List Char → Bool
  | [], _ => true
  | _ :: _, [] => false
  | a :: as, b :: bs => a = b && leadsWith as bs

/-- Model of Python `s.split(sep, 1)` for a non-empty separator string:
`some (before, after)` splitting at the first occurrence of `sep`, or
`none` when `sep` does not occur (in which case the Python two-variable
unpacking `meta, actual = ...` raises `ValueError`). -/
def splitSub (sep : List Char) : List Char → Option (List Char × List Char)
  | [] => none
  | c :: rest =>
    if leadsWith sep (c :: rest) then some ([], (c :: rest).drop sep.length)
    else match splitSub sep rest with
      | some (pre, post) => some (c :: pre, post)
      | none => none

/-! ## Request Router: `parse_filename` (gcs_to_bq/main.py, lines 124-131)

```python
def parse_filename(file_name):
    try:
        meta, actual_file = file_name.split("__", 1)
        dataset_id, table_id, mode = meta.split("-")
        return dataset_id, table_id, mode.lower(), actual_file
    except Exception:
        raise ValueError("Filename must be in format: dataset-table-mode__file.csv")
```
`none` models the raised `ValueError` (the `MalformedRequest` of the spec). -/

/-- Embedding of `parse_filename`: split on the first `"__"`, split the
metadata segment on every `"-"`; succeed only when the latter yields exactly
three tokens, returning `(dataset_id, table_id, mode.lower(), actual_file)`.
No validation of the mode token is performed beyond lowercasing it. -/
def parse_filename (file_name : String) : Option (String × String × String × String) :=
  match splitSub "__".data file_name.data with
  | none => none
  | some (meta, actual) =>
    match splitAllChar '-' meta with
    | [a, b, m] =>
      some (String.mk a, String.mk b, String.mk (m.map asciiLower), String.mk actual)
    | _ => none

/-- Embedding of the `WriteDisposition` values used by `load_csv_to_bigquery`. -/
inductive WriteDisposition
  | WRITE_TRUNCATE
  | WRITE_APPEND
  deriving DecidableEq, Repr

/-- Embedding of the write-disposition selection inside `load_csv_to_bigquery`
(gcs_to_bq/main.py, lines 186-203): `WRITE_TRUNCATE` exactly when the mode
string equals `"create"`, else `WRITE_APPEND`. -/
def write_disposition (mode : String) : WriteDisposition :=
  if mode = "create" then .WRITE_TRUNCATE else .WRITE_APPEND

/-! Helper lemmas about `parse_filename`. -/

theorem parse_filename_eq_some (fn : String) (meta actual : List Char)
    (a b m : List Char)
    (hsplit : splitSub "__".data fn.data = some (meta, actual))
    (hmeta : splitAllChar '-' meta = [a, b, m]) :
    parse_filename fn =
      some (String.mk a, String.mk b, String.mk (m.map asciiLower), String.mk actual) := by
  unfold parse_filename
  rw [hsplit]
  simp only [hmeta]

theorem parse_filename_eq_none (fn : String) :
    parse_filename fn = none ↔
      splitSub "__".data fn.data = none ∨
      ∃ meta actual, splitSub "__".data fn.data = some (meta, actual) ∧
        (splitAllChar '-' meta).length ≠ 3 := by
  unfold parse_filename
  rcases hsplit : splitSub "__".data fn.data with _ | ⟨meta, actual⟩
  · simp
  · rcases hmeta : splitAllChar '-' meta with _ | ⟨a, _ | ⟨b, _ | ⟨m, _ | ⟨d, t⟩⟩⟩⟩ <;>
      simp [hmeta]

/-- C1 counterexample: the claim says `parse_filename` fails with a
`MalformedRequest` error when the mode token is not one of
`create`/`append` (case-insensitively).  The code performs no such check:
on the filename `"ds-tbl-replace__file.csv"`, whose mode token `"replace"`
is neither `create` nor `append`, it returns the four parsed components
instead of raising. -/
theorem C1_counterexample :
    parse_filename "ds-tbl-replace__file.csv" = some ("ds", "tbl", "replace", "file.csv") ∧
    "replace" ≠ "create" ∧ "replace" ≠ "append" := by decide

/-- C1 (amended): `parse_filename` fails (raises `ValueError`, modelled as
`none`) if and only if splitting on the double delimiter `"__"` finds no
occurrence, or splitting the metadata segment on `"-"` does not yield
exactly three tokens; on any well-formed name it returns the four parsed
components, with the mode token lowercased but not validated against any
set of allowed modes. -/
theorem C1_parse_filename_amended (fn : String) :
    (parse_filename fn = none ↔
      splitSub "__".data fn.data = none ∨
      ∃ meta actual, splitSub "__".data fn.data = some (meta, actual) ∧
        (splitAllChar '-' meta).length ≠ 3) ∧
    (∀ meta actual a b m,
      splitSub "__".data fn.data = some (meta, actual) →
      splitAllChar '-' meta = [a, b, m] →
      parse_filename fn =
        some (String.mk a, String.mk b, String.mk (m.map asciiLower), String.mk actual)) :=
  ⟨parse_filename_eq_none fn,
   fun meta actual a b m h1 h2 => parse_filename_eq_some fn meta actual a b m h1 h2⟩

/-- Closed instance of `C1_parse_filename_amended` at a concrete well-formed
filename with a valid mode. -/
theorem C1_parse_filename_amended_witness :
    parse_filename "ds-tbl-Append__file.csv" = some ("ds", "tbl", "append", "file.csv") :=
  (C1_parse_filename_amended "ds-tbl-Append__file.csv").2 "ds-tbl-Append".data
    "file.csv".data "ds".data "tbl".data "Append".data (by decide) (by decide)

/-- C10: for every filename whose metadata segment splits into exactly three
tokens, `parse_filename` accepts any mode token without validating it (it
only lowercases it); in the load path every mode other than `"create"`
selects the `WRITE_APPEND` write disposition, so an unrecognized mode such
as `"replace"` is silently processed as an APPEND load instead of failing. -/
theorem C10_unvalidated_mode_appends :
    (∀ (fn : String) (meta actual a b m : List Char),
      splitSub "__".data fn.data = some (meta, actual) →
      splitAllChar '-' meta = [a, b, m] →
      parse_filename fn =
        some (String.mk a, String.mk b, String.mk (m.map asciiLower), String.mk actual)) ∧
    (∀ mode : String, mode ≠ "create" → write_disposition mode = .WRITE_APPEND) ∧
    parse_filename "ds-tbl-replace__data.csv" = some ("ds", "tbl", "replace", "data.csv") ∧
    write_disposition "replace" = .WRITE_APPEND := by
  refine ⟨fun fn meta actual a b m h1 h2 =>
    parse_filename_eq_some fn meta actual a b m h1 h2, fun mode h => ?_, by decide, by decide⟩
  simp [write_disposition, h]

/-- Closed instance of `C10_unvalidated_mode_appends` at a concrete filename
carrying the unrecognized mode token `"weird"`. -/
theorem C10_unvalidated_mode_appends_witness :
    parse_filename "x-y-weird__f.csv" = some ("x", "y", "weird", "f.csv") ∧
    write_disposition "weird" = .WRITE_APPEND :=
  ⟨C10_unvalidated_mode_appends.1 "x-y-weird__f.csv" "x-y-weird".data "f.csv".data
      "x".data "y".data "weird".data (by decide) (by decide),
   C10_unvalidated_mode_appends.2.1 "weird" (by decide)⟩

/-! ## Schema Inference Engine: `detect_column_type` (gcs_to_bq/main.py, lines 24-72)

The Python code filters out `None`/`''` values, strips the rest, and then
classifies with ordered precedence: a regex match against the boolean
lexical set; an integer-counting loop that breaks on the first value that
contains a literal `'.'` or fails `int(v)`; a float-counting loop that
breaks on the first value failing `float(v)`; and `'STRING'` as fallback.
`pyIntParses` / `pyFloatParses` model CPython's `int(str)` / `float(str)`
acceptance on already-stripped ASCII text (sign, digit runs with single
underscores between digits, and for floats an optional fraction, exponent,
or the special words inf/infinity/nan). -/

/-- A non-empty ASCII digit run in which underscores may appear only
strictly between digits (the CPython numeric-literal underscore rule). -/
def pyDigits : List Char → Bool
  | [] => false
  | [c] => c.isDigit
  | c :: '_' :: rest => c.isDigit && pyDigits rest
  | c :: rest => c.isDigit && pyDigits rest

/-- Drop one optional leading sign character. -/
def pySign : List Char → List Char
  | '+' :: rest => rest
  | '-' :: rest => rest
  | cs => cs

/-- Model of CPython `int(s)` acceptance on stripped text: optional sign,
then a digit run. -/
def pyIntParses (s : String) : Bool := pyDigits (pySign s.data)

/-- Split at the first `'e'`/`'E'`, when present (exponent separator). -/
def splitExp : List Char → Option (List Char × List Char)
  | [] => none
  | c :: rest =>
    if c = 'e' ∨ c = 'E' then some ([], rest)
    else match splitExp rest with
      | some (m, e) => some (c :: m, e)
      | none => none

/-- A float mantissa without exponent: digits, digits `'.'`, digits `'.'`
digits, or `'.'` digits. -/
def pyMantissa (cs : List Char) : Bool :=
  match splitAllChar '.' cs with
  | [whole] => pyDigits whole
  | [whole, frac] =>
    if whole = [] then pyDigits frac
    else if frac = [] then pyDigits whole
    else pyDigits whole && pyDigits frac
  | _ => false

/-- Model of CPython `float(s)` acceptance on stripped text: optional sign,
then either one of the special words `inf`/`infinity`/`nan`
(case-insensitive) or a mantissa with an optional `e`/`E` exponent. -/
def pyFloatParses (s : String) : Bool :=
  let cs := pySign s.data
  let low := cs.map asciiLower
  low = "inf".data || low = "infinity".data || low = "nan".data ||
    (match splitExp cs with
     | none => pyMantissa cs
     | some (m, e) => pyMantissa m && pyDigits (pySign e))

/-- Model of `bool_pattern.match(v)`: the case-insensitive boolean lexical
set `true/false/yes/no/t/f/y/n/0/1` anchored on the whole string. -/
def boolMatch (v : String) : Bool :=
  (["true", "false", "yes", "no", "t", "f", "y", "n", "0", "1"].map String.data).contains
    (v.data.map asciiLower)

/-- Model of Python `str.strip()` on a `String`. -/
def pyStrip (s : String) : String := String.mk (stripChars s.data)

/-- The BigQuery type names returned by `detect_column_type` (the Python
code returns them as the string literals `'BOOLEAN'`, `'INT64'`,
`'FLOAT64'`, `'STRING'`). -/
inductive BQType
  | BOOLEAN
  | INT64
  | FLOAT64
  | STRING
  deriving DecidableEq, Repr

/-- The integer-detection loop of `detect_column_type`: counts values until
one contains a literal `'.'` (the `break` before `int(v)`) or fails
`int(v)` (the `except ValueError: break`); the count of a broken run is the
length of the prefix counted so far. -/
def intCountLoop : List String → Nat
  | [] => 0
  | v :: rest =>
    if v.data.contains '.' then 0
    else if pyIntParses v then 1 + intCountLoop rest
    else 0

/-- The float-detection loop of `detect_column_type`: counts values until
one fails `float(v)`. -/
def floatCountLoop : List String → Nat
  | [] => 0
  | v :: rest => if pyFloatParses v then 1 + floatCountLoop rest else 0

/-- Embedding of `detect_column_type`: empty input or all-null/blank input
is `STRING`; else `BOOLEAN` when every stripped value matches the boolean
lexical set; else `INT64` when the integer loop counted every value; else
`FLOAT64` when the float loop counted every value; else `STRING`. -/
def detect_column_type (values : List String) : BQType :=
  if values = [] then .STRING
  else
    let non_null := (values.filter (fun v => v != "")).map pyStrip
    if non_null = [] then .STRING
    else if non_null.all boolMatch then .BOOLEAN
    else if intCountLoop non_null = non_null.length then .INT64
    else if floatCountLoop non_null = non_null.length then .FLOAT64
    else .STRING

/-- Classification as worded by the spec (ordered precedence over "every
non-empty sampled value"), to be compared with `detect_column_type`:
BOOLEAN if every non-empty value is in the boolean lexical set; else INT64
if every non-empty value parses as an integer and contains no literal
decimal point; else FLOAT64 if every non-empty value parses as a float;
else STRING; and all-null/blank input is STRING. -/
def spec_classify (values : List String) : BQType :=
  let non_null := (values.filter (fun v => v != "")).map pyStrip
  if non_null = [] then .STRING
  else if non_null.all boolMatch then .BOOLEAN
  else if non_null.all (fun v => pyIntParses v && !(v.data.contains '.')) then .INT64
  else if non_null.all (fun v => pyFloatParses v) then .FLOAT64
  else .STRING

theorem intCountLoop_eq_length (l : List String) :
    intCountLoop l = l.length ↔
      l.all (fun v => pyIntParses v && !(v.data.contains '.')) = true := by
  induction l with
  | nil => simp [intCountLoop]
  | cons v rest ih =>
    unfold intCountLoop
    cases hdot : v.data.contains '.' with
    | true =>
      simp only [hdot, if_true, List.length_cons, List.all_cons, Bool.and_eq_true,
        Bool.not_eq_true']
      constructor
      · intro h; omega
      · rintro ⟨⟨-, hc⟩, -⟩; exact absurd hc (by simp)
    | false =>
      cases hint : pyIntParses v with
      | true =>
        have harith : (1 + intCountLoop rest = rest.length + 1) ↔
            intCountLoop rest = rest.length := by omega
        simp only [hdot, hint, if_false, if_true, Bool.false_eq_true, List.length_cons]
        rw [harith, ih]
        have hmem : ('.' ∉ v.data) := by simpa using hdot
        simp [List.all_cons, hint, hmem]
      | false =>
        simp only [hdot, hint, Bool.false_eq_true, if_false, List.length_cons]
        constructor
        · intro h; omega
        · intro h
          rw [List.all_cons] at h
          simp [hint] at h

theorem floatCountLoop_eq_length (l : List String) :
    floatCountLoop l = l.length ↔ l.all (fun v => pyFloatParses v) = true := by
  induction l with
  | nil => simp [floatCountLoop]
  | cons v rest ih =>
    unfold floatCountLoop
    cases hf : pyFloatParses v with
    | true =>
      have harith : (1 + floatCountLoop rest = rest.length + 1) ↔
          floatCountLoop rest = rest.length := by omega
      simp only [hf, if_true, List.length_cons]
      rw [harith, ih]
      simp [List.all_cons, hf]
    | false =>
      simp only [hf, Bool.false_eq_true, if_false, List.length_cons]
      constructor
      · intro h; omega
      · intro h
        rw [List.all_cons] at h
        simp [hf] at h

/-- C2: `detect_column_type` classifies by exactly the ordered precedence
stated in the spec (BOOLEAN if every non-empty value is in the boolean
lexical set; else INT64 if every non-empty value parses as an integer and
contains no literal decimal point; else FLOAT64 if every non-empty value
parses as a float; else STRING; all-null/blank input is STRING), so
`["007", "042"]` yields INT64, `["3", "4.5", "6"]` yields FLOAT64 (not
INT64), and an all-blank column yields STRING. -/
theorem C2_detect_column_type_spec :
    (∀ values : List String, detect_column_type values = spec_classify values) ∧
    detect_column_type ["007", "042"] = .INT64 ∧
    detect_column_type ["3", "4.5", "6"] = .FLOAT64 ∧
    detect_column_type ["", "   "] = .STRING := by
  refine ⟨fun values => ?_, by decide, by decide, by decide⟩
  unfold detect_column_type spec_classify
  by_cases hv : values = []
  · subst hv; simp
  · simp only [hv, if_false, intCountLoop_eq_length, floatCountLoop_eq_length]

/-! ## Cleaning Engine: `DataCleaner._determine_cleaning_operations`
(BQ_SQL/data_cleaner.py, lines 32-67)

Percentages are computed in `ℚ` (the Python code uses exact small decimals
here; the decision rule is a pair of threshold comparisons).  A missing
report entry behaves like `total_rows = 0` (the Python
`quality_report.get(field, {})` / `stats.get('total_rows', 0)` defaults)
and is skipped. -/

/-- Per-column statistics as read out of the quality report by the cleaner. -/
structure ColumnStats where
  total_rows : Nat
  empty_string_count : Nat
  whitespace_only_count : Nat
  deriving DecidableEq, Repr

/-- The cleaner's configuration dictionary. -/
structure CleanConfig where
  max_empty_percentage : ℚ
  min_issue_percentage : ℚ
  operations : List String
  deriving DecidableEq, Repr

/-- Embedding of `DataCleaner._get_default_config`. -/
def get_default_config : CleanConfig :=
  { max_empty_percentage := 50
    min_issue_percentage := 1
    operations := ["trim", "nullify_empty", "nullify_whitespace"] }

/-- One entry of the cleaning plan built by
`_determine_cleaning_operations`. -/
structure CleaningOp where
  field : String
  operations : List String
  issues_pct : ℚ
  deriving DecidableEq, Repr

/-- Embedding of the per-field loop body of
`_determine_cleaning_operations`: skip when `total_rows = 0`; compute
`empty_pct`, `whitespace_pct` and their sum; keep the column only when the
sum lies within `[min_issue_percentage, max_empty_percentage]` (both
inclusive) and at least one configured operation applies. -/
def determineOpsForField (config : CleanConfig) (field : String) (stats : ColumnStats) :
    Option CleaningOp :=
  if stats.total_rows = 0 then none
  else
    let empty_pct : ℚ := (stats.empty_string_count : ℚ) / stats.total_rows * 100
    let whitespace_pct : ℚ := (stats.whitespace_only_count : ℚ) / stats.total_rows * 100
    let total_issues_pct := empty_pct + whitespace_pct
    if config.min_issue_percentage ≤ total_issues_pct ∧
        total_issues_pct ≤ config.max_empty_percentage then
      let operations :=
        (if "trim" ∈ config.operations then ["TRIM"] else []) ++
        (if "nullify_empty" ∈ config.operations ∧ empty_pct < config.max_empty_percentage
          then ["NULLIF_EMPTY"] else []) ++
        (if "nullify_whitespace" ∈ config.operations ∧
            whitespace_pct < config.max_empty_percentage
          then ["NULLIF_WHITESPACE"] else [])
      if operations ≠ [] then some ⟨field, operations, total_issues_pct⟩ else none
    else none

/-- Lookup of a field's statistics in the quality report
(`quality_report.get(field, ...)`). -/
def lookupReport (report : List (String × ColumnStats)) (field : String) :
    Option ColumnStats :=
  match report.find? (fun p => p.1 == field) with
  | some p => some p.2
  | none => none

/-- Embedding of `_determine_cleaning_operations`: the per-field loop over
`fields`, collecting the kept columns in order. -/
def determine_cleaning_operations (config : CleanConfig) (fields : List String)
    (report : List (String × ColumnStats)) : List CleaningOp :=
  fields.filterMap (fun f =>
    match lookupReport report f with
    | some stats => determineOpsForField config f stats
    | none => none)

/-- C3: under the default configuration (bounds 1 and 50), a column with
`total_rows > 0` is selected for cleaning iff
`issue_pct = empty_pct + whitespace_pct` satisfies `1 ≤ issue_pct ≤ 50`
with both bounds inclusive; a column with `issue_pct = 0` or with
`issue_pct` strictly above the maximum bound is never selected. -/
theorem C3_cleaning_selection (field : String) (stats : ColumnStats)
    (h : 0 < stats.total_rows) :
    ((determineOpsForField get_default_config field stats).isSome ↔
      1 ≤ (stats.empty_string_count : ℚ) / stats.total_rows * 100 +
            (stats.whitespace_only_count : ℚ) / stats.total_rows * 100 ∧
      (stats.empty_string_count : ℚ) / stats.total_rows * 100 +
            (stats.whitespace_only_count : ℚ) / stats.total_rows * 100 ≤ 50) ∧
    ((stats.empty_string_count : ℚ) / stats.total_rows * 100 +
        (stats.whitespace_only_count : ℚ) / stats.total_rows * 100 = 0 →
      determineOpsForField get_default_config field stats = none) ∧
    (50 < (stats.empty_string_count : ℚ) / stats.total_rows * 100 +
        (stats.whitespace_only_count : ℚ) / stats.total_rows * 100 →
      determineOpsForField get_default_config field stats = none) := by
  have hne : ¬ stats.total_rows = 0 := Nat.pos_iff_ne_zero.mp h
  set e : ℚ := (stats.empty_string_count : ℚ) / stats.total_rows * 100 with he
  set w : ℚ := (stats.whitespace_only_count : ℚ) / stats.total_rows * 100 with hw
  unfold determineOpsForField
  simp only [hne, if_false, get_default_config, ← he, ← hw]
  by_cases hin : (1 : ℚ) ≤ e + w ∧ e + w ≤ 50
  · simp only [hin, if_true]
    constructor
    · simp [List.mem_cons]
    · constructor
      · intro h0; exfalso; rw [h0] at hin; exact absurd hin.1 (by norm_num)
      · intro h50; exfalso; exact absurd hin.2 (not_le.mpr h50)
  · simp only [hin, if_false]
    refine ⟨by simp [hin], fun _ => trivial, fun _ => trivial⟩

/-- Closed instance of `C3_cleaning_selection`: 1000 rows, 60 empty strings
(6%), 5 whitespace-only (0.5%) gives `issue_pct = 6.5`, inside the default
bounds, so the column is selected. -/
theorem C3_cleaning_selection_witness :
    (determineOpsForField get_default_config "email" ⟨1000, 60, 5⟩).isSome := by
  have := (C3_cleaning_selection "email" ⟨1000, 60, 5⟩ (by norm_num)).1
  exact this.mpr (by norm_num)

/-! ## Copy-based remediation: `clean_bq_table` (clean_table/main.py, lines 56-76)

```python
if dup_percentage < 0.1 and dup_count > 0:
    select_clause = "SELECT DISTINCT *"
```
with `dup_percentage = dup_count / total_rows` (the function returns early
when `total_rows == 0`, so the rate is well defined on every reachable
input). -/

/-- Embedding of the deduplication decision of `clean_bq_table`: DISTINCT
is applied iff the duplicate rate is strictly below `0.1` and at least one
duplicate row exists. -/
def dedup_applied (dup_count total_rows : Nat) : Bool :=
  decide ((dup_count : ℚ) / (total_rows : ℚ) < 1 / 10) && decide (0 < dup_count)

/-- The SELECT clause chosen by `clean_bq_table` for the copy query. -/
def select_clause (dup_count total_rows : Nat) : String :=
  if dedup_applied dup_count total_rows then "SELECT DISTINCT *" else "SELECT *"

/-- Row-level semantics of the copy query: `SELECT DISTINCT *` keeps one
copy of each row, plain `SELECT *` keeps every row. -/
def copied_rows (rows : List String) (dup_count total_rows : Nat) : List String :=
  if dedup_applied dup_count total_rows then rows.dedup else rows

/-- C5: distinct-row semantics are applied iff the duplicate rate is
strictly below the 10% ceiling and at least one duplicate row is present;
a table of 1000 rows with 600 duplicates (60%) is copied with a plain
`SELECT *`, keeping all its duplicates. -/
theorem C5_distinct_gate :
    (∀ dup_count total_rows : Nat,
      dedup_applied dup_count total_rows = true ↔
        (dup_count : ℚ) / (total_rows : ℚ) < 1 / 10 ∧ 0 < dup_count) ∧
    select_clause 600 1000 = "SELECT *" ∧
    (∀ rows : List String, copied_rows rows 600 1000 = rows) := by
  have h60 : decide ((((600 : Nat)) : ℚ) / (((1000 : Nat)) : ℚ) < 1 / 10) = false :=
    decide_eq_false (by norm_num)
  have hd : dedup_applied 600 1000 = false := by
    rw [dedup_applied, h60, Bool.false_and]
  refine ⟨fun d t => ?_, ?_, fun rows => ?_⟩
  · simp [dedup_applied]
  · rw [select_clause, hd]; rfl
  · rw [copied_rows, hd]; rfl

/-! ## Result Validator (BQ_SQL/validator.py)

`validate_cleaning_results` reads the current row count from a query; that
count is a parameter here.  When the count changed and
`original_row_count = 0`, the Python percentage computation raises
`ZeroDivisionError`, which the enclosing `except` clause turns into
`False`; that exception path is the `original = 0` branch below. -/

/-- Embedding of `validate_cleaning_results` (validator.py, lines 19-45). -/
def validate_cleaning_results (current original : Nat) (tolerance_pct : ℚ) : Bool :=
  let change : ℤ := (current : ℤ) - (original : ℤ)
  if change ≠ 0 then
    if original = 0 then false
    else if (change.natAbs : ℚ) / (original : ℚ) * 100 > tolerance_pct then false
    else true
  else true

/-- C6: `validate_cleaning_results` returns `false` only if the absolute
row-count delta exceeds `tolerance_pct` percent of the original count, and
any non-zero delta within tolerance yields `true`. -/
theorem C6_validate_tolerance (current original : Nat) (tolerance_pct : ℚ) :
    (validate_cleaning_results current original tolerance_pct = false →
      tolerance_pct / 100 * original < (((current : ℤ) - original).natAbs : ℚ)) ∧
    ((current : ℤ) - original ≠ 0 →
      ¬(tolerance_pct / 100 * original < (((current : ℤ) - original).natAbs : ℚ)) →
      validate_cleaning_results current original tolerance_pct = true) := by
  set change : ℤ := (current : ℤ) - (original : ℤ) with hchange
  have hbody : validate_cleaning_results current original tolerance_pct =
      if change ≠ 0 then
        if original = 0 then false
        else if (change.natAbs : ℚ) / (original : ℚ) * 100 > tolerance_pct then false
        else true
      else true := rfl
  by_cases hzero : change = 0
  · rw [hbody, if_neg (not_not_intro hzero)]
    exact ⟨fun hfalse => absurd hfalse (by simp),
           fun hc _ => absurd hzero hc⟩
  · by_cases horig : original = 0
    · have habs : (0 : ℚ) < (change.natAbs : ℚ) := by
        have : change.natAbs ≠ 0 := Int.natAbs_ne_zero.mpr hzero
        exact_mod_cast Nat.pos_of_ne_zero this
      rw [hbody, if_pos hzero, if_pos horig]
      constructor
      · intro _
        rw [horig]
        simpa using habs
      · intro _ hcon
        exact absurd (by rw [horig]; simpa using habs) hcon
    · have hpos : (0 : ℚ) < (original : ℚ) := by
        exact_mod_cast Nat.pos_of_ne_zero horig
      have key : ((change.natAbs : ℚ) / (original : ℚ) * 100 > tolerance_pct) ↔
          (tolerance_pct / 100 * original < (change.natAbs : ℚ)) := by
        rw [gt_iff_lt,
          show (change.natAbs : ℚ) / (original : ℚ) * 100 =
            (change.natAbs : ℚ) * 100 / (original : ℚ) by ring,
          lt_div_iff₀ hpos,
          show tolerance_pct / 100 * (original : ℚ) =
            tolerance_pct * (original : ℚ) / 100 by ring,
          div_lt_iff₀ (show (0 : ℚ) < 100 by norm_num)]
      rw [hbody, if_pos hzero, if_neg horig]
      by_cases hgt : (change.natAbs : ℚ) / (original : ℚ) * 100 > tolerance_pct
      · rw [if_pos hgt]
        exact ⟨fun _ => key.mp hgt, fun _ hcon => absurd (key.mp hgt) hcon⟩
      · rw [if_neg hgt]
        exact ⟨fun hfalse => absurd hfalse (by simp), fun _ _ => rfl⟩

/-- Closed instance of `C6_validate_tolerance`: 990 rows out of an original
1000 with 2% tolerance is a non-zero delta within tolerance, accepted. -/
theorem C6_validate_tolerance_witness :
    validate_cleaning_results 990 1000 2 = true :=
  (C6_validate_tolerance 990 1000 2).2 (by norm_num) (by norm_num)

/-- Embedding of `validate_data_integrity` (validator.py, lines 47-71).
The INFORMATION_SCHEMA query result is a parameter: `Except.ok cols` is a
successful query returning the live column names, `Except.error ()` is any
raised exception, which the `except` clause converts to `True`. -/
def validate_data_integrity (fields : List String)
    (schemaResult : Except Unit (List String)) : Bool :=
  match schemaResult with
  | .ok schema_columns =>
    if fields.any (fun f => !(schema_columns.contains f)) then false else true
  | .error _ => true

/-- C7: `validate_data_integrity` returns `false` when an expected column
is missing from the live schema, but returns `true` (permissive success)
when the check raises an unexpected error. -/
theorem C7_integrity_permissive (fields cols : List String) :
    ((∃ f ∈ fields, f ∉ cols) → validate_data_integrity fields (.ok cols) = false) ∧
    validate_data_integrity fields (.error ()) = true := by
  constructor
  · rintro ⟨f, hf, hnot⟩
    have hany : fields.any (fun f => !(cols.contains f)) = true :=
      List.any_eq_true.mpr ⟨f, hf, by simpa using hnot⟩
    show (if fields.any (fun f => !(cols.contains f)) then false else true) = false
    rw [if_pos hany]
  · rfl

/-- Closed instance of `C7_integrity_permissive`: the expected column
`"a"` missing from an empty live schema fails the check, while an
exception during the check is reported as success. -/
theorem C7_integrity_permissive_witness :
    validate_data_integrity ["a"] (.ok []) = false ∧
    validate_data_integrity ["a"] (.error ()) = true :=
  ⟨(C7_integrity_permissive ["a"] []).1 ⟨"a", by simp, by simp⟩,
   (C7_integrity_permissive ["a"] []).2⟩

/-! ## Bounded polling loops (gcs_to_bq/main.py, lines 133-164)

Both verification helpers run `for attempt in range(max_attempts)` against
the external store.  The store's answer at each attempt is an oracle
function of the attempt number; `time.sleep` has no effect in the model.
A Python loop that falls through without returning (only possible when
`max_attempts = 0`) returns `None`, modelled as `Option` with `none`. -/

/-- Embedding of `verify_table_load`: at each attempt, `obs attempt` is the
row count of the table (`some n`) or a `NotFound` (`none`).  A positive
count returns `True`; a zero count on the last attempt returns `True`
(degraded success, "table created but appears to be empty"); a `NotFound`
returns `False` immediately. -/
def verify_table_load (obs : Nat → Option Nat) (maxAttempts : Nat) : Option Bool :=
  go maxAttempts 0
where
  go : Nat → Nat → Option Bool
    | 0, _ => none
    | remaining + 1, attempt =>
      match obs attempt with
      | some n =>
        if 0 < n then some true
        else if attempt < maxAttempts - 1 then go remaining (attempt + 1)
        else some true
      | none => some false

/-- Embedding of `verify_dataset_creation`: at each attempt, `obs attempt`
tells whether `get_dataset` succeeds; success returns `True`, a `NotFound`
on the last attempt returns `False`. -/
def verify_dataset_creation (obs : Nat → Bool) (maxAttempts : Nat) : Option Bool :=
  go maxAttempts 0
where
  go : Nat → Nat → Option Bool
    | 0, _ => none
    | remaining + 1, attempt =>
      if obs attempt then some true
      else if attempt < maxAttempts - 1 then go remaining (attempt + 1)
      else some false

theorem verify_table_load_go_all_zero (obs : Nat → Option Nat) (maxAttempts : Nat)
    (hobs : ∀ k, obs k = some 0) :
    ∀ remaining attempt, remaining + attempt = maxAttempts → 0 < remaining →
      verify_table_load.go obs maxAttempts remaining attempt = some true := by
  intro remaining
  induction remaining with
  | zero => intro attempt _ h; exact absurd h (by omega)
  | succ r ih =>
    intro attempt hsum _
    unfold verify_table_load.go
    rw [hobs attempt]
    simp only [lt_irrefl, if_false]
    by_cases hlast : attempt < maxAttempts - 1
    · rw [if_pos hlast]
      exact ih (attempt + 1) (by omega) (by omega)
    · rw [if_neg hlast]

theorem verify_table_load_go_false (obs : Nat → Option Nat) (maxAttempts : Nat) :
    ∀ remaining attempt,
      verify_table_load.go obs maxAttempts remaining attempt = some false →
      ∃ k, obs k = none := by
  intro remaining
  induction remaining with
  | zero => intro attempt h; exact absurd h (by simp [verify_table_load.go])
  | succ r ih =>
    intro attempt h
    unfold verify_table_load.go at h
    rcases hobs : obs attempt with _ | n
    · exact ⟨attempt, hobs⟩
    · rw [hobs] at h
      dsimp only at h
      by_cases hn : 0 < n
      · rw [if_pos hn] at h; exact absurd h (by simp)
      · rw [if_neg hn] at h
        by_cases hlast : attempt < maxAttempts - 1
        · rw [if_pos hlast] at h; exact ih (attempt + 1) h
        · rw [if_neg hlast] at h; exact absurd h (by simp)

/-- C9: if the destination table exists with row count still zero at every
polling attempt, `verify_table_load` exhausts its attempts and reports
degraded success (`True`), not a failure; and whenever it returns `False`,
some attempt observed the table as not found. -/
theorem C9_verify_table_load_degraded (obs : Nat → Option Nat) (maxAttempts : Nat) :
    (1 ≤ maxAttempts → (∀ k, obs k = some 0) →
      verify_table_load obs maxAttempts = some true) ∧
    (verify_table_load obs maxAttempts = some false → ∃ k, obs k = none) := by
  constructor
  · intro hmax hobs
    exact verify_table_load_go_all_zero obs maxAttempts hobs maxAttempts 0 (by omega) hmax
  · exact verify_table_load_go_false obs maxAttempts maxAttempts 0

/-- Closed instance of `C9_verify_table_load_degraded`: a table that stays
at zero rows through all five default attempts verifies as `True`, and a
table never found verifies as `False`. -/
theorem C9_verify_table_load_degraded_witness :
    verify_table_load (fun _ => some 0) 5 = some true ∧
    verify_table_load (fun _ => none) 5 = some false :=
  ⟨(C9_verify_table_load_degraded (fun _ => some 0) 5).1 (by norm_num) (fun _ => rfl),
   by rfl⟩

/-! ## Table Provisioner: `create_dataset_if_not_exists`
(gcs_to_bq/main.py, lines 166-184)

The external create call's outcome is a parameter: `created` (the dataset
was created by this invocation and is now present in the store),
`conflict` (`google.api_core.exceptions.Conflict`: another invocation
created it concurrently, so it is present), or `failure` (any other
exception from `create_dataset`).  The function returns the updated list
of datasets, the reported boolean success, and whether a create call was
issued.  After a successful create the code polls
`verify_dataset_creation` (5 attempts) against the store; in this
sequential model the store does not change between polls. -/

/-- Outcome of the external `create_dataset` call. -/
inductive CreateResult
  | created
  | conflict
  | failure
  deriving DecidableEq, Repr

/-- Embedding of `create_dataset_if_not_exists`.  Returns
`(datasets', success, createCalled)`.  The function catches `NotFound`,
`Conflict` and generic exceptions itself, so it never raises. -/
def create_dataset_if_not_exists (datasets : List String) (dataset_id : String)
    (createResult : CreateResult) : List String × Bool × Bool :=
  if dataset_id ∈ datasets then (datasets, true, false)
  else
    match createResult with
    | .created =>
      (dataset_id :: datasets,
       (verify_dataset_creation
          (fun _ => decide (dataset_id ∈ dataset_id :: datasets)) 5).getD false,
       true)
    | .conflict => (dataset_id :: datasets, true, true)
    | .failure => (datasets, false, true)

/-- C8: `create_dataset_if_not_exists` is idempotent: when the dataset
already exists it reports success without issuing a create call; an
already-exists conflict during the create call is treated as success; and
two successive invocations for the same dataset (each one's create call
either succeeding or hitting a conflict) both report success, without
raising. -/
theorem C8_ensure_dataset_idempotent (datasets : List String) (dataset_id : String) :
    (∀ cr, dataset_id ∈ datasets →
      create_dataset_if_not_exists datasets dataset_id cr = (datasets, true, false)) ∧
    ((create_dataset_if_not_exists datasets dataset_id .conflict).2.1 = true) ∧
    (∀ cr₁ cr₂, cr₁ ≠ .failure →
      (create_dataset_if_not_exists datasets dataset_id cr₁).2.1 = true ∧
      (create_dataset_if_not_exists
        (create_dataset_if_not_exists datasets dataset_id cr₁).1
        dataset_id cr₂).2.1 = true) := by
  refine ⟨fun cr hmem => ?_, ?_, fun cr₁ cr₂ hne => ?_⟩
  · rw [create_dataset_if_not_exists.eq_def, if_pos hmem]
  · by_cases hmem : dataset_id ∈ datasets
    · rw [create_dataset_if_not_exists.eq_def, if_pos hmem]
    · rw [create_dataset_if_not_exists.eq_def, if_neg hmem]
  · by_cases hmem : dataset_id ∈ datasets
    · have h1 : create_dataset_if_not_exists datasets dataset_id cr₁ =
          (datasets, true, false) := by
        rw [create_dataset_if_not_exists.eq_def, if_pos hmem]
      rw [h1]
      exact ⟨rfl, by rw [create_dataset_if_not_exists.eq_def, if_pos hmem]⟩
    · cases cr₁ with
      | created =>
        have hver : verify_dataset_creation
            (fun _ => decide (dataset_id ∈ dataset_id :: datasets)) 5 = some true := by
          unfold verify_dataset_creation verify_dataset_creation.go
          simp [List.mem_cons_self]
        have h1 : create_dataset_if_not_exists datasets dataset_id .created =
            (dataset_id :: datasets, true, true) := by
          rw [create_dataset_if_not_exists.eq_def, if_neg hmem]
          dsimp only
          rw [hver]
          rfl
        rw [h1]
        exact ⟨rfl,
          by rw [create_dataset_if_not_exists.eq_def, if_pos (List.mem_cons_self _ _)]⟩
      | conflict =>
        have h1 : create_dataset_if_not_exists datasets dataset_id .conflict =
            (dataset_id :: datasets, true, true) := by
          rw [create_dataset_if_not_exists.eq_def, if_neg hmem]
        rw [h1]
        exact ⟨rfl,
          by rw [create_dataset_if_not_exists.eq_def, if_pos (List.mem_cons_self _ _)]⟩
      | failure => exact absurd rfl hne

/-- Closed instance of `C8_ensure_dataset_idempotent`: for a fresh dataset,
a first invocation that creates it and a second invocation both report
success; for an existing dataset no create call is issued. -/
theorem C8_ensure_dataset_idempotent_witness :
    create_dataset_if_not_exists ["d"] "d" .created = (["d"], true, false) ∧
    ((create_dataset_if_not_exists [] "d" .created).2.1 = true ∧
     (create_dataset_if_not_exists
        (create_dataset_if_not_exists [] "d" .created).1 "d" .created).2.1 = true) :=
  ⟨(C8_ensure_dataset_idempotent ["d"] "d").1 .created (by decide),
   (C8_ensure_dataset_idempotent [] "d").2.2 .created .created (by decide)⟩

/-! ## Load Orchestrator and main entry point `gcs_to_bq`
(gcs_to_bq/main.py, lines 186-231 and 253-331)

The BigQuery store is a record of the existing datasets and the existing
tables with their row counts.  External behaviours that do not depend on
the store are parameters: whether `process_csv_schema` succeeds (it reads
object storage only), the outcome of the external create-dataset call, the
load job's success, the number of loaded rows, and the outcome of
`run_data_quality_checks`. -/

/-- A storage trigger event: `{bucket, name}`. -/
structure Event where
  bucket : String
  name : String
  deriving DecidableEq, Repr

/-- The BigQuery store: dataset ids and fully-qualified tables with their
row counts. -/
structure BQState where
  datasets : List String
  tables : List (String × Nat)
  deriving DecidableEq, Repr

/-- Row count of a table in the store (`bq.get_table`): `none` is
`NotFound`. -/
def lookupTable (tables : List (String × Nat)) (ref : String) : Option Nat :=
  match tables.find? (fun p => p.1 == ref) with
  | some p => some p.2
  | none => none

/-- Store update performed by a completed load job on its destination. -/
def setTable (tables : List (String × Nat)) (ref : String) (rows : Nat) :
    List (String × Nat) :=
  (ref, rows) :: tables.filter (fun p => !(p.1 == ref))

/-- Model of Python `name.endswith('.csv')`. -/
def endsWithCsv (name : String) : Bool :=
  leadsWith ".csv".data.reverse name.data.reverse

/-- How one invocation of `gcs_to_bq` ends.  Every constructor except
`malformedRaise` is a clean `return` from the function; `malformedRaise`
is the `ValueError` from `parse_filename`, logged and re-raised by the
outer `except` clause. -/
inductive Outcome
  | skippedNonCsv
  | malformedRaise
  | schemaAbort
  | datasetAbort
  | createConflictNoOp
  | loadAbort
  | qualityAbort
  | success
  deriving DecidableEq, Repr

/-- Embedding of `load_csv_to_bigquery`'s effect on the store: exactly one
load job for `uri` is submitted; on success the destination's row count
becomes the loaded count under `WRITE_TRUNCATE` (mode `"create"`) or is
added to it under `WRITE_APPEND`.  Returns
`(tables', success, submitted job uris)`; post-load verification is folded
into `loadOk`. -/
def load_csv_to_bigquery (tables : List (String × Nat)) (uri tableRef mode : String)
    (loadOk : Bool) (loadedRows : Nat) : List (String × Nat) × Bool × List String :=
  if loadOk then
    (setTable tables tableRef
      (match write_disposition mode with
       | .WRITE_TRUNCATE => loadedRows
       | .WRITE_APPEND => (lookupTable tables tableRef).getD 0 + loadedRows),
     true, [uri])
  else (tables, false, [uri])

/-- Embedding of the `gcs_to_bq` entry point: skip non-CSV names; parse
the filename; process the schema; ensure the dataset; in `"create"` mode
return without loading when the destination table already exists; else
submit the load job and run the quality checks.  Returns the final store,
the outcome, and the list of submitted load-job uris. -/
def gcs_to_bq (project : String) (schemaOk : Bool) (createRes : CreateResult)
    (loadOk : Bool) (loadedRows : Nat) (qualityOk : Bool)
    (ev : Event) (st : BQState) : BQState × Outcome × List String :=
  if ¬ endsWithCsv ev.name then (st, .skippedNonCsv, [])
  else
    match parse_filename ev.name with
    | none => (st, .malformedRaise, [])
    | some (dataset_id, table_id, mode, _actual_file) =>
      if ¬ schemaOk then (st, .schemaAbort, [])
      else
        let provision := create_dataset_if_not_exists st.datasets dataset_id createRes
        let st₁ : BQState := ⟨provision.1, st.tables⟩
        if ¬ provision.2.1 then (st₁, .datasetAbort, [])
        else
          let table_ref := project ++ "." ++ dataset_id ++ "." ++ table_id
          if mode = "create" ∧ (lookupTable st₁.tables table_ref).isSome then
            (st₁, .createConflictNoOp, [])
          else
            let load := load_csv_to_bigquery st₁.tables
              ("gs://" ++ ev.bucket ++ "/" ++ ev.name) table_ref mode loadOk loadedRows
            let st₂ : BQState := ⟨st₁.datasets, load.1⟩
            if ¬ load.2.1 then (st₂, .loadAbort, load.2.2)
            else if ¬ qualityOk then (st₂, .qualityAbort, load.2.2)
            else (st₂, .success, load.2.2)

/-- C4: an invocation in CREATE mode whose destination table already exists
submits no load job, leaves the store's tables (hence the pre-existing
table's row count) unchanged, and ends cleanly with a conflict outcome,
not an error. -/
theorem C4_create_conflict_no_op (project : String) (createRes : CreateResult)
    (loadOk qualityOk : Bool) (loadedRows n : Nat) (ev : Event) (st : BQState)
    (ds tbl f : String)
    (hcsv : endsWithCsv ev.name = true)
    (hparse : parse_filename ev.name = some (ds, tbl, "create", f))
    (hds : (create_dataset_if_not_exists st.datasets ds createRes).2.1 = true)
    (htbl : lookupTable st.tables (project ++ "." ++ ds ++ "." ++ tbl) = some n) :
    (gcs_to_bq project true createRes loadOk loadedRows qualityOk ev st).1.tables =
      st.tables ∧
    (gcs_to_bq project true createRes loadOk loadedRows qualityOk ev st).2.1 =
      .createConflictNoOp ∧
    (gcs_to_bq project true createRes loadOk loadedRows qualityOk ev st).2.2 = [] := by
  have hmain : gcs_to_bq project true createRes loadOk loadedRows qualityOk ev st =
      (⟨(create_dataset_if_not_exists st.datasets ds createRes).1, st.tables⟩,
       .createConflictNoOp, []) := by
    unfold gcs_to_bq
    rw [if_neg (by rw [hcsv]; exact not_not_intro rfl), hparse]
    dsimp only
    rw [if_neg (not_not_intro rfl), if_neg (by rw [hds]; exact not_not_intro rfl),
      if_pos ⟨rfl, by rw [htbl]; rfl⟩]
  rw [hmain]
  exact ⟨rfl, rfl, rfl⟩

/-- Closed instance of `C4_create_conflict_no_op` at a concrete event and
store holding the destination table with 7 rows. -/
theorem C4_create_conflict_no_op_witness :
    (gcs_to_bq "p" true .created true 5 true ⟨"b", "d-t-create__f.csv"⟩
        ⟨["d"], [("p.d.t", 7)]⟩).1.tables = [("p.d.t", 7)] ∧
    (gcs_to_bq "p" true .created true 5 true ⟨"b", "d-t-create__f.csv"⟩
        ⟨["d"], [("p.d.t", 7)]⟩).2.1 = .createConflictNoOp ∧
    (gcs_to_bq "p" true .created true 5 true ⟨"b", "d-t-create__f.csv"⟩
        ⟨["d"], [("p.d.t", 7)]⟩).2.2 = [] :=
  C4_create_conflict_no_op "p" .created true true 5 7 ⟨"b", "d-t-create__f.csv"⟩
    ⟨["d"], [("p.d.t", 7)]⟩ "d" "t" "f.csv" (by decide) (by decide) (by decide) (by decide)
